import Mathlib

/-!
Verification of the expense-tracker audio-recording widget
(`src/components/expenses/AudioRecorder.tsx` and `src/services/api.ts`)
against its natural-language specification.

The component is shallowly embedded: decoded audio samples are rational
amplitudes, the React state of the widget is an explicit record, each event
handler of the source becomes a pure transition function, and the external
outcomes the handlers branch on (microphone grant, audio decode, playback
start, upload response) are explicit inductive arguments.  Browser resources
(object URLs, microphone streams) are tracked by ghost fields so that
explicit-release claims can be stated.
-/

/-! Waveform renderer (`visualizeAudio`, lines 223-261) -/

/-- One drawn envelope segment: `moveTo(i, y1); lineTo(i, y2)` of the canvas
path, with `y1 = (1+min)*amp` and `y2 = (1+max)*amp`. -/
structure Segment where
  col : Nat
  y1 : ℚ
  y2 : ℚ
  deriving Repr, DecidableEq

/-- Ceiling division `Math.ceil(n / w)` for natural `n` and positive natural `w`, as in
`const step = Math.ceil(channelData.length / WIDTH)`. -/
def jsCeilDiv (n w : Nat) : Nat := (n + w - 1) / w

/-- One iteration of the inner scan loop of `visualizeAudio`:
`const datum = channelData[(i*step)+j]; if (datum < min) min = datum;
if (datum > max) max = datum;`.  An out-of-range index yields JavaScript
`undefined`, for which both comparisons are false, so the accumulator is
left unchanged. -/
def scanStep (data : List ℚ) (mm : ℚ × ℚ) (idx : Nat) : ℚ × ℚ :=
  match data.get? idx with
  | none => mm
  | some d => (if d < mm.1 then d else mm.1, if d > mm.2 then d else mm.2)

/-- The `(min, max)` accumulator of pixel column `i`: the inner loop
`for (let j = 0; j < step; j++)` starting from the sentinels
`min = 1.0, max = -1.0`. -/
def columnMinMax (data : List ℚ) (step i : Nat) : ℚ × ℚ :=
  (List.range step).foldl (fun mm j => scanStep data mm (i * step + j)) (1, -1)

/-- The sample values actually present in the index span
`[i*step, i*step + step)` of the buffer (indices past the end contribute
nothing). -/
def spanSamples (data : List ℚ) (step i : Nat) : List ℚ :=
  ((List.range step).map (fun j => data.get? (i * step + j))).reduceOption

/-- The full outer loop of `visualizeAudio`: for each pixel column
`i in [0, WIDTH)` compute the column's `(min, max)` and emit the vertical
segment from `(1+min)*amp` to `(1+max)*amp` with `amp = HEIGHT/2`. -/
def visualizeSegments (data : List ℚ) (W H : Nat) : List Segment :=
  let step := jsCeilDiv data.length W
  let amp : ℚ := (H : ℚ) / 2
  (List.range W).map (fun i =>
    let mm := columnMinMax data step i
    ⟨i, (1 + mm.1) * amp, (1 + mm.2) * amp⟩)

/-! Fold lemmas for the column scan -/

/-- The min component of the accumulator never increases during the scan. -/
lemma scanStep_fst_le (data : List ℚ) (mm : ℚ × ℚ) (idx : Nat) :
    (scanStep data mm idx).1 ≤ mm.1 := by
  unfold scanStep
  cases data.get? idx with
  | none => exact le_refl _
  | some d =>
      simp only
      split
      · exact le_of_lt (by assumption)
      · exact le_refl _

/-- The max component of the accumulator never decreases during the scan. -/
lemma scanStep_snd_ge (data : List ℚ) (mm : ℚ × ℚ) (idx : Nat) :
    mm.2 ≤ (scanStep data mm idx).2 := by
  unfold scanStep
  cases data.get? idx with
  | none => exact le_refl _
  | some d =>
      simp only
      split
      · exact le_of_lt (by assumption)
      · exact le_refl _

/-- After scanning an in-range sample `d`, the accumulator brackets `d`. -/
lemma scanStep_brackets (data : List ℚ) (mm : ℚ × ℚ) (idx : Nat) (d : ℚ)
    (h : data.get? idx = some d) :
    (scanStep data mm idx).1 ≤ d ∧ d ≤ (scanStep data mm idx).2 := by
  unfold scanStep
  rw [h]
  constructor
  · simp only
    split
    · exact le_refl d
    · exact le_of_not_lt (by assumption)
  · simp only
    split
    · exact le_refl d
    · exact le_of_not_lt (by assumption)

/-- Over any index list, the min component of the fold never increases. -/
lemma foldScan_fst_le (data : List ℚ) (idxs : List Nat) (mm : ℚ × ℚ) :
    (idxs.foldl (scanStep data) mm).1 ≤ mm.1 := by
  induction idxs generalizing mm with
  | nil => exact le_refl _
  | cons a l ih =>
      exact le_trans (ih (scanStep data mm a)) (scanStep_fst_le data mm a)

/-- Over any index list, the max component of the fold never decreases. -/
lemma foldScan_snd_ge (data : List ℚ) (idxs : List Nat) (mm : ℚ × ℚ) :
    mm.2 ≤ (idxs.foldl (scanStep data) mm).2 := by
  induction idxs generalizing mm with
  | nil => exact le_refl _
  | cons a l ih =>
      exact le_trans (scanStep_snd_ge data mm a) (ih (scanStep data mm a))

/-- Any in-range sample whose index occurs in the scanned list is bracketed
by the final accumulator. -/
lemma foldScan_brackets (data : List ℚ) (idxs : List Nat) (mm : ℚ × ℚ)
    (idx : Nat) (hidx : idx ∈ idxs) (d : ℚ) (h : data.get? idx = some d) :
    (idxs.foldl (scanStep data) mm).1 ≤ d ∧
      d ≤ (idxs.foldl (scanStep data) mm).2 := by
  induction idxs generalizing mm with
  | nil => cases hidx
  | cons a l ih =>
      rcases List.mem_cons.mp hidx with rfl | hmem
      · obtain ⟨h1, h2⟩ := scanStep_brackets data mm idx d h
        refine ⟨le_trans (foldScan_fst_le data l _) h1,
                le_trans h2 (foldScan_snd_ge data l _)⟩
      · exact ih _ hmem

/-- The final min is either the initial value or one of the scanned in-range
samples. -/
lemma foldScan_fst_mem (data : List ℚ) (idxs : List Nat) (mm : ℚ × ℚ) :
    (idxs.foldl (scanStep data) mm).1 = mm.1 ∨
      ∃ idx ∈ idxs, data.get? idx = some (idxs.foldl (scanStep data) mm).1 := by
  induction idxs generalizing mm with
  | nil => exact Or.inl rfl
  | cons a l ih =>
      rcases ih (scanStep data mm a) with heq | ⟨idx, hmem, hget⟩
      · rw [List.foldl_cons, heq]
        unfold scanStep
        cases hg : data.get? a with
        | none => exact Or.inl rfl
        | some d =>
            simp only
            split
            · exact Or.inr ⟨a, List.mem_cons_self a l, hg⟩
            · exact Or.inl rfl
      · exact Or.inr ⟨idx, List.mem_cons_of_mem a hmem, hget⟩

/-- The final max is either the initial value or one of the scanned in-range
samples. -/
lemma foldScan_snd_mem (data : List ℚ) (idxs : List Nat) (mm : ℚ × ℚ) :
    (idxs.foldl (scanStep data) mm).2 = mm.2 ∨
      ∃ idx ∈ idxs, data.get? idx = some (idxs.foldl (scanStep data) mm).2 := by
  induction idxs generalizing mm with
  | nil => exact Or.inl rfl
  | cons a l ih =>
      rcases ih (scanStep data mm a) with heq | ⟨idx, hmem, hget⟩
      · rw [List.foldl_cons, heq]
        unfold scanStep
        cases hg : data.get? a with
        | none => exact Or.inl rfl
        | some d =>
            simp only
            split
            · exact Or.inr ⟨a, List.mem_cons_self a l, hg⟩
            · exact Or.inl rfl
      · exact Or.inr ⟨idx, List.mem_cons_of_mem a hmem, hget⟩

/-! Widget state (`AudioRecorder` component state, lines 119-131) -/

/-- Origin of the held audio (`audioSource` state). -/
inductive AudioSource where
  | recorded
  | uploaded
  deriving Repr, DecidableEq

/-- An audio blob held by the widget: raw bytes plus a MIME type. -/
structure Capture where
  bytes : List Nat
  mime : String
  deriving Repr, DecidableEq

/-- The expense record embedded in a successful upload response.  Its fields
live in `src/types`, outside the embedded sources, and the widget treats it
as opaque, so it is carried here as an opaque payload. -/
structure Expense where
  payload : String
  deriving Repr, DecidableEq

/-- The React state of the widget plus ghost fields: `mediaRecorder` and
`micStream` are the ref and the stream handed out by `getUserMedia`, and
`releasedStreams` records which microphone streams have had their tracks
explicitly stopped (the source never performs such a release, so no
transition below appends to it). -/
structure WidgetState where
  isRecording : Bool
  audioBlob : Option Capture
  audioUrl : Option Nat
  isPlaying : Bool
  isLoading : Bool
  errorMessage : Option String
  audioSource : Option AudioSource
  playbackPosition : ℚ
  mediaRecorder : Option Nat
  micStream : Option Nat
  releasedStreams : List Nat
  deriving Repr, DecidableEq

/-- The initial component state (`useState` initializers). -/
def initialState : WidgetState :=
  { isRecording := false, audioBlob := none, audioUrl := none,
    isPlaying := false, isLoading := false, errorMessage := none,
    audioSource := none, playbackPosition := 0, mediaRecorder := none,
    micStream := none, releasedStreams := [] }

/-- Outcome of `navigator.mediaDevices.getUserMedia`. -/
inductive MicResult where
  | granted (streamId : Nat)
  | denied
  deriving Repr, DecidableEq

/-- Outcome of `audioRef.current.play()`. -/
inductive PlayResult where
  | started
  | failed
  deriving Repr, DecidableEq

/-- Outcome of `audioContext.decodeAudioData`. -/
inductive DecodeResult where
  | ok (samples : List ℚ)
  | failure
  deriving Repr, DecidableEq

/-- Outcome of the upload POST as classified by the axios error shape. -/
inductive UploadResult where
  | success (message : String) (expense : Expense)
  | httpError (status : Nat) (message : String)
  | noResponse
  | requestSetupError
  | nonAxiosError
  deriving Repr, DecidableEq

/-! User-facing messages (string literals of the source) -/

def msgMicrophone : String :=
  "No se pudo acceder al micrófono. Por favor, verifica los permisos e intenta de nuevo."

def msgPlayback : String :=
  "Error al reproducir el audio. Por favor, intenta de nuevo."

def msg422 : String :=
  "No se registró ningún gasto. El archivo se procesó correctamente, pero no se pudo identificar ningún gasto válido."

def msgServerError (m : String) : String :=
  "Error en la respuesta del servidor: " ++ m

def msgNoResponse : String :=
  "No se recibió respuesta del servidor. Por favor, intenta de nuevo."

def msgRequestSetup : String :=
  "Error al preparar la solicitud. Por favor, intenta de nuevo."

def msgUnexpected : String :=
  "Ocurrió un error inesperado. Por favor, intenta de nuevo."

/-! Event handlers -/

/-- Handler `startRecording` (lines 157-182): on a granted stream, a recorder is
created over it and recording starts; on denial the catch reports the
microphone error message. -/
def startRecording (s : WidgetState) (mic : MicResult) : WidgetState :=
  match mic with
  | .granted sid =>
      { s with mediaRecorder := some sid, micStream := some sid,
               isRecording := true }
  | .denied => { s with errorMessage := some msgMicrophone }

/-- Handler `stopRecording` (lines 184-189): when a recorder exists and recording is
active, `mediaRecorder.stop()` is requested and the recording flag cleared.
No stream track is stopped. -/
def stopRecording (s : WidgetState) : WidgetState :=
  if s.mediaRecorder.isSome && s.isRecording then
    { s with isRecording := false }
  else s

/-- The `mediaRecorder.onstop` callback (lines 168-174): the buffered chunks
are concatenated into one `audio/wav` blob stored with origin recorded, the
recording flag is cleared, and visualization is kicked off.  The microphone
stream is not touched. -/
def onRecorderStop (s : WidgetState) (chunks : List Nat) : WidgetState :=
  { s with audioBlob := some ⟨chunks, "audio/wav"⟩,
           audioSource := some AudioSource.recorded,
           isRecording := false }

/-- Handler `togglePlayback` (lines 191-203): the audio element is always rendered so
the ref guard holds; if playing, pause; otherwise `play()` is started and its
rejection handler reports the playback error message.  In both branches
`setIsPlaying(!isPlaying)` runs unconditionally. -/
def togglePlayback (s : WidgetState) (r : PlayResult) : WidgetState :=
  if s.isPlaying then
    { s with isPlaying := false }
  else
    match r with
    | .started => { s with isPlaying := true }
    | .failed =>
        { s with errorMessage := some msgPlayback, isPlaying := true }

/-- Handler `updatePlaybackPosition` (lines 205-212), the `timeupdate` listener:
stores `(currentTime / duration) * canvas.width`. -/
def updatePlaybackPosition (s : WidgetState) (currentTime duration : ℚ)
    (canvasWidth : Nat) : WidgetState :=
  { s with playbackPosition := currentTime / duration * (canvasWidth : ℚ) }

/-- The `ended` listener (line 137): only the playing flag is cleared. -/
def onEnded (s : WidgetState) : WidgetState :=
  { s with isPlaying := false }

/-- The audio element's `onPause` attribute (line 365). -/
def onPauseEvent (s : WidgetState) : WidgetState :=
  { s with isPlaying := false }

/-- The audio element's `onPlay` attribute (line 364). -/
def onPlayEvent (s : WidgetState) : WidgetState :=
  { s with isPlaying := true }

/-- Handler `resetAudio` (lines 263-279): pauses the element, rewinds it, clears the
capture, its URL and origin, the playing flag and the playback position, and
clears the canvas.  The microphone stream is not touched. -/
def resetAudio (s : WidgetState) : WidgetState :=
  { s with audioBlob := none, audioUrl := none, audioSource := none,
           isPlaying := false, playbackPosition := 0 }

/-- Renderer `visualizeAudio` (lines 223-261): decodes the blob and draws the envelope
of the first channel on the 800x100 canvas.  A decode rejection is not caught
inside the function and propagates to the caller. -/
def visualizeAudio (decode : DecodeResult) (W H : Nat) :
    Except Unit (List Segment) :=
  match decode with
  | .failure => Except.error ()
  | .ok samples => Except.ok (visualizeSegments samples W H)

/-- Handler `handleFileSelect` (lines 214-221): stores the selected file with origin
uploaded, then awaits `visualizeAudio` with no catch.  The Boolean records
whether a decode rejection escaped the handler uncaught; in that case no
error message has been set. -/
def handleFileSelect (s : WidgetState) (file : Capture)
    (decode : DecodeResult) : WidgetState × Bool :=
  let s1 := { s with audioBlob := some file,
                     audioSource := some AudioSource.uploaded }
  match visualizeAudio decode 800 100 with
  | .error _ => (s1, true)
  | .ok _ => (s1, false)

/-- Handler `handleUpload` (lines 281-314) together with `uploadExpenseFile` of
`src/services/api.ts`: with a held capture, loading is raised, the capture is
posted, and the outcome is classified exactly as the catch does; loading is
lowered in the `finally`.  The returned list collects the
`onUploadComplete` invocations of this call. -/
def handleUpload (s : WidgetState) (result : UploadResult) :
    WidgetState × List Expense :=
  match s.audioBlob with
  | none => (s, [])
  | some _ =>
      let s1 := { s with isLoading := true }
      let out :=
        match result with
        | .success _ expense => (s1, [expense])
        | .httpError status m =>
            (if status = 422 then { s1 with errorMessage := some msg422 }
             else { s1 with errorMessage := some (msgServerError m) }, [])
        | .noResponse => ({ s1 with errorMessage := some msgNoResponse }, [])
        | .requestSetupError =>
            ({ s1 with errorMessage := some msgRequestSetup }, [])
        | .nonAxiosError =>
            ({ s1 with errorMessage := some msgUnexpected }, [])
      ({ out.1 with isLoading := false }, out.2)

/-! Object-URL lifecycle (`useEffect([audioBlob])`, lines 147-155) -/

/-- Browser object-URL operations observed by the blob effect. -/
inductive UrlOp where
  | create (url : Nat)
  | revoke (url : Nat)
  deriving Repr, DecidableEq

/-- The state relevant to the object-URL effect: the held capture, the URL
visible to the audio element, the URL owned by the active effect cleanup, a
fresh-URL counter, and the trace of URL operations performed so far. -/
structure UrlState where
  audioBlob : Option Capture
  audioUrl : Option Nat
  effectUrl : Option Nat
  nextUrl : Nat
  trace : List UrlOp
  deriving Repr, DecidableEq

/-- Committing `setAudioBlob b`: React first runs the cleanup of the previous
effect run (`URL.revokeObjectURL(url)`), then the effect body, which when a
blob is present creates a fresh object URL and stores it via `setAudioUrl`. -/
def setAudioBlobEffect (s : UrlState) (b : Option Capture) : UrlState :=
  let s1 :=
    match s.effectUrl with
    | some u =>
        { s with trace := s.trace ++ [UrlOp.revoke u], effectUrl := none }
    | none => s
  match b with
  | some c =>
      { s1 with audioBlob := some c, audioUrl := some s1.nextUrl,
                effectUrl := some s1.nextUrl, nextUrl := s1.nextUrl + 1,
                trace := s1.trace ++ [UrlOp.create s1.nextUrl] }
  | none => { s1 with audioBlob := none }

/-! Claims about upload, playback, capture and resources -/

/-- Claim C2: an upload of a held capture that receives a 2xx response
invokes the host callback `onUploadComplete` exactly once, with exactly the
expense record embedded in that response. -/
theorem upload_success_callback_once (s : WidgetState) (c : Capture)
    (m : String) (e : Expense) (h : s.audioBlob = some c) :
    (handleUpload s (UploadResult.success m e)).2 = [e] := by
  unfold handleUpload
  rw [h]

/-- Witness for C2 at a concrete held capture and response. -/
theorem upload_success_callback_once_witness :
    ({ initialState with
        audioBlob := some ⟨[0], "audio/wav"⟩ } : WidgetState).audioBlob
      = some ⟨[0], "audio/wav"⟩ ∧
    (handleUpload { initialState with audioBlob := some ⟨[0], "audio/wav"⟩ }
        (UploadResult.success "ok" ⟨"almuerzo 12,50"⟩)).2
      = [⟨"almuerzo 12,50"⟩] :=
  ⟨rfl, upload_success_callback_once _ ⟨[0], "audio/wav"⟩ "ok"
      ⟨"almuerzo 12,50"⟩ rfl⟩

/-- Claim C3: an upload failing with HTTP 422 surfaces the no-valid-expense
message and leaves the held capture (and its URL) unchanged so the user can
retry; any other non-2xx response surfaces the server-provided message. -/
theorem upload_422_and_server_error (s : WidgetState) (c : Capture)
    (m : String) (h : s.audioBlob = some c) :
    ((handleUpload s (UploadResult.httpError 422 m)).1.errorMessage
        = some msg422 ∧
      (handleUpload s (UploadResult.httpError 422 m)).1.audioBlob = some c ∧
      (handleUpload s (UploadResult.httpError 422 m)).1.audioUrl
        = s.audioUrl) ∧
    ∀ status : Nat, status ≠ 422 →
      (handleUpload s (UploadResult.httpError status m)).1.errorMessage
        = some (msgServerError m) := by
  constructor
  · unfold handleUpload
    rw [h]
    simp [h]
  · intro status hst
    unfold handleUpload
    rw [h]
    simp [hst]

/-- Witness for C3 at a concrete held capture, a 422 and a 500 response. -/
theorem upload_422_and_server_error_witness :
    ({ initialState with
        audioBlob := some ⟨[0], "audio/wav"⟩ } : WidgetState).audioBlob
      = some ⟨[0], "audio/wav"⟩ ∧
    (handleUpload { initialState with audioBlob := some ⟨[0], "audio/wav"⟩ }
        (UploadResult.httpError 422 "fallo interno")).1.errorMessage
      = some msg422 ∧
    (handleUpload { initialState with audioBlob := some ⟨[0], "audio/wav"⟩ }
        (UploadResult.httpError 422 "fallo interno")).1.audioBlob
      = some ⟨[0], "audio/wav"⟩ ∧
    (handleUpload { initialState with audioBlob := some ⟨[0], "audio/wav"⟩ }
        (UploadResult.httpError 500 "fallo interno")).1.errorMessage
      = some (msgServerError "fallo interno") :=
  ⟨rfl,
   (upload_422_and_server_error _ ⟨[0], "audio/wav"⟩ "fallo interno"
       rfl).1.1,
   (upload_422_and_server_error _ ⟨[0], "audio/wav"⟩ "fallo interno"
       rfl).1.2.1,
   (upload_422_and_server_error _ ⟨[0], "audio/wav"⟩ "fallo interno"
       rfl).2 500 (by decide)⟩

/-- Claim C4, evaluated at the failing input: selecting a file whose decode
fails sets no user-visible error message, and the rejection escapes
`handleFileSelect` uncaught (there is no try/catch around
`decodeAudioData`), contradicting the claim that decode failures are
surfaced rather than swallowed. -/
theorem decode_failure_escapes_unreported :
    visualizeAudio DecodeResult.failure 800 100 = Except.error () ∧
    (handleFileSelect initialState ⟨[0], "audio/mpeg"⟩
        DecodeResult.failure).2 = true ∧
    (handleFileSelect initialState ⟨[0], "audio/mpeg"⟩
        DecodeResult.failure).1.errorMessage = none :=
  ⟨rfl, rfl, rfl⟩

/-- Claim C5 counterexample: from a non-playing state, a failed play start
reports the playback error but flips `isPlaying` to true — the state does
not remain unplayed as the claim requires. -/
theorem togglePlayback_failed_sets_playing :
    initialState.isPlaying = false ∧
    (togglePlayback initialState PlayResult.failed).errorMessage
      = some msgPlayback ∧
    (togglePlayback initialState PlayResult.failed).isPlaying = true :=
  ⟨rfl, rfl, rfl⟩

/-- Claim C5 amended: toggling while not playing with a failing play reports
the playback error message but nonetheless marks the state as playing, since
`setIsPlaying(!isPlaying)` runs regardless of the play outcome; toggling
while playing pauses. -/
theorem togglePlayback_behavior (s : WidgetState) (r : PlayResult) :
    (s.isPlaying = false →
      (togglePlayback s PlayResult.failed).errorMessage = some msgPlayback ∧
      (togglePlayback s PlayResult.failed).isPlaying = true) ∧
    (s.isPlaying = true → (togglePlayback s r).isPlaying = false) := by
  constructor
  · intro h
    unfold togglePlayback
    rw [h]
    exact ⟨rfl, rfl⟩
  · intro h
    unfold togglePlayback
    rw [h]
    rfl

/-- Witness for C5 in both directions at concrete states. -/
theorem togglePlayback_behavior_witness :
    initialState.isPlaying = false ∧
    ((togglePlayback initialState PlayResult.failed).errorMessage
        = some msgPlayback ∧
      (togglePlayback initialState PlayResult.failed).isPlaying = true) ∧
    ({ initialState with isPlaying := true } : WidgetState).isPlaying
      = true ∧
    (togglePlayback { initialState with isPlaying := true }
        PlayResult.started).isPlaying = false :=
  ⟨rfl,
   (togglePlayback_behavior initialState PlayResult.failed).1 rfl,
   rfl,
   (togglePlayback_behavior { initialState with isPlaying := true }
       PlayResult.started).2 rfl⟩

/-- Claim C6: the capture slot is a single `Option` field, so at most one
capture is ever held; when a new blob replaces a previous one, the cleanup
of the previous effect revokes the old object URL before the new URL is
created, and the resulting state holds only the new capture and only the
new URL. -/
theorem blob_replacement_releases_old (s : UrlState) (u : Nat) (c : Capture)
    (h : s.effectUrl = some u) :
    (setAudioBlobEffect s (some c)).trace
      = s.trace ++ [UrlOp.revoke u, UrlOp.create s.nextUrl] ∧
    (setAudioBlobEffect s (some c)).audioBlob = some c ∧
    (setAudioBlobEffect s (some c)).audioUrl = some s.nextUrl ∧
    (setAudioBlobEffect s (some c)).effectUrl = some s.nextUrl := by
  unfold setAudioBlobEffect
  rw [h]
  simp

/-- Witness for C6: replacing a held capture that owns URL 0 revokes URL 0
and only then creates URL 1. -/
theorem blob_replacement_releases_old_witness :
    ({ audioBlob := some ⟨[1], "audio/wav"⟩, audioUrl := some 0,
       effectUrl := some 0, nextUrl := 1,
       trace := [UrlOp.create 0] } : UrlState).effectUrl = some 0 ∧
    (setAudioBlobEffect
        { audioBlob := some ⟨[1], "audio/wav"⟩, audioUrl := some 0,
          effectUrl := some 0, nextUrl := 1, trace := [UrlOp.create 0] }
        (some ⟨[2], "audio/mpeg"⟩)).trace
      = [UrlOp.create 0] ++ [UrlOp.revoke 0, UrlOp.create 1] ∧
    (setAudioBlobEffect
        { audioBlob := some ⟨[1], "audio/wav"⟩, audioUrl := some 0,
          effectUrl := some 0, nextUrl := 1, trace := [UrlOp.create 0] }
        (some ⟨[2], "audio/mpeg"⟩)).audioBlob = some ⟨[2], "audio/mpeg"⟩ :=
  ⟨rfl,
   (blob_replacement_releases_old _ 0 ⟨[2], "audio/mpeg"⟩ rfl).1,
   (blob_replacement_releases_old _ 0 ⟨[2], "audio/mpeg"⟩ rfl).2.1⟩

/-- Claim C7 counterexample: a complete record-stop-reset run acquires
microphone stream 0, and both after stop and after reset the set of
explicitly released streams is still empty — the device lock is never
released by the widget. -/
theorem mic_stream_never_released :
    (startRecording initialState (MicResult.granted 0)).micStream
      = some 0 ∧
    (stopRecording
        (startRecording initialState
          (MicResult.granted 0))).releasedStreams = [] ∧
    (resetAudio (onRecorderStop
        (stopRecording (startRecording initialState (MicResult.granted 0)))
        [1, 2])).releasedStreams = [] ∧
    (resetAudio (onRecorderStop
        (stopRecording (startRecording initialState (MicResult.granted 0)))
        [1, 2])).micStream = some 0 := by
  refine ⟨rfl, ?_, ?_, ?_⟩ <;> rfl

/-- Claim C7 amended: stopping a recording stops the recorder and resetting
clears the capture and playback state, but no transition of the widget ever
explicitly stops the microphone stream's tracks: the released set is
preserved by stop, by the recorder's stop callback and by reset, and the
stream handle itself survives reset. -/
theorem stop_reset_do_not_release_stream (s : WidgetState)
    (chunks : List Nat) :
    (stopRecording s).releasedStreams = s.releasedStreams ∧
    (stopRecording s).micStream = s.micStream ∧
    (onRecorderStop s chunks).releasedStreams = s.releasedStreams ∧
    (resetAudio s).releasedStreams = s.releasedStreams ∧
    (resetAudio s).micStream = s.micStream := by
  refine ⟨?_, ?_, rfl, rfl, rfl⟩ <;>
    (unfold stopRecording; split <;> rfl)

/-- Claim C9: the `ended` listener only clears the playing flag — the
position keeps its end-of-clip value — while an explicit reset zeroes the
position and stops playback immediately. -/
theorem ended_keeps_position_reset_clears (s : WidgetState) :
    (onEnded s).isPlaying = false ∧
    (onEnded s).playbackPosition = s.playbackPosition ∧
    (onEnded s).audioBlob = s.audioBlob ∧
    (resetAudio s).playbackPosition = 0 ∧
    (resetAudio s).isPlaying = false :=
  ⟨rfl, rfl, rfl, rfl, rfl⟩

/-- Claim C8 counterexample: a timeupdate at second 5 of a 10-second clip on
the 800-pixel canvas stores position 400 — a pixel offset, not a fraction of
total duration in [0, 1]. -/
theorem playbackPosition_not_fraction :
    (updatePlaybackPosition initialState 5 10 800).playbackPosition
      = 400 ∧
    ¬ (updatePlaybackPosition initialState 5 10 800).playbackPosition
        ≤ 1 := by
  constructor
  · show (5 : ℚ) / 10 * (800 : Nat) = 400
    norm_num
  · show ¬ (5 : ℚ) / 10 * (800 : Nat) ≤ 1
    norm_num

/-- Claim C8 amended: the stored playback position is the fraction
`currentTime / duration` scaled by the canvas width, so it lies in
`[0, canvasWidth]` whenever `0 ≤ currentTime ≤ duration` with positive
duration; and it is mutated only by the timeupdate callback and by reset:
every other transition of the widget preserves it. -/
theorem playbackPosition_scaled_fraction (s : WidgetState) (t d : ℚ)
    (w : Nat) (ht0 : 0 ≤ t) (htd : t ≤ d) (hd : 0 < d) :
    ((updatePlaybackPosition s t d w).playbackPosition
        = t / d * (w : ℚ) ∧
      0 ≤ (updatePlaybackPosition s t d w).playbackPosition ∧
      (updatePlaybackPosition s t d w).playbackPosition ≤ (w : ℚ)) ∧
    (∀ mic, (startRecording s mic).playbackPosition
        = s.playbackPosition) ∧
    ((stopRecording s).playbackPosition = s.playbackPosition) ∧
    (∀ chunks, (onRecorderStop s chunks).playbackPosition
        = s.playbackPosition) ∧
    (∀ r, (togglePlayback s r).playbackPosition = s.playbackPosition) ∧
    ((onEnded s).playbackPosition = s.playbackPosition) ∧
    ((onPlayEvent s).playbackPosition = s.playbackPosition) ∧
    ((onPauseEvent s).playbackPosition = s.playbackPosition) ∧
    (∀ res, (handleUpload s res).1.playbackPosition
        = s.playbackPosition) ∧
    (∀ file dec, ((handleFileSelect s file dec).1).playbackPosition
        = s.playbackPosition) ∧
    ((resetAudio s).playbackPosition = 0) := by
  refine ⟨⟨rfl, ?_, ?_⟩, ?_, ?_, ?_, ?_, rfl, rfl, rfl, ?_, ?_, rfl⟩
  · exact mul_nonneg (div_nonneg ht0 hd.le) (Nat.cast_nonneg w)
  · calc t / d * (w : ℚ)
        ≤ 1 * (w : ℚ) :=
          mul_le_mul_of_nonneg_right ((div_le_one hd).mpr htd)
            (Nat.cast_nonneg w)
      _ = (w : ℚ) := one_mul _
  · intro mic
    cases mic <;> rfl
  · unfold stopRecording
    split <;> rfl
  · intro chunks
    rfl
  · intro r
    unfold togglePlayback
    split
    · rfl
    · cases r <;> rfl
  · intro res
    unfold handleUpload
    cases hb : s.audioBlob with
    | none => rfl
    | some c =>
        cases res with
        | success m e => rfl
        | httpError st m =>
            by_cases hst : st = 422 <;> simp [hst]
        | noResponse => rfl
        | requestSetupError => rfl
        | nonAxiosError => rfl
  · intro file dec
    cases dec <;> rfl

/-- Witness for C8 at a concrete half-played 10-second clip. -/
theorem playbackPosition_scaled_fraction_witness :
    (0 : ℚ) ≤ 5 ∧ (5 : ℚ) ≤ 10 ∧ (0 : ℚ) < 10 ∧
    ((updatePlaybackPosition initialState 5 10 800).playbackPosition
        = 5 / 10 * ((800 : Nat) : ℚ) ∧
      0 ≤ (updatePlaybackPosition initialState 5 10 800).playbackPosition ∧
      (updatePlaybackPosition initialState 5 10 800).playbackPosition
        ≤ ((800 : Nat) : ℚ)) :=
  ⟨by norm_num, by norm_num, by norm_num,
   (playbackPosition_scaled_fraction initialState 5 10 800 (by norm_num)
       (by norm_num) (by norm_num)).1⟩

/-! Claims about the waveform envelope -/

/-- The column fold, re-expressed as a fold of `scanStep` over the explicit
index list of the column's span. -/
lemma columnMinMax_eq_foldl_map (data : List ℚ) (step i : Nat) :
    columnMinMax data step i
      = ((List.range step).map (fun j => i * step + j)).foldl
          (scanStep data) (1, -1) := by
  rw [columnMinMax, List.foldl_map]

/-- The element any drawn pixel column emits, in terms of the column
accumulator. -/
lemma visualizeSegments_get (data : List ℚ) (W H : Nat) (i : Nat)
    (hi : i < W) :
    (visualizeSegments data W H).get? i
      = some ⟨i,
          (1 + (columnMinMax data (jsCeilDiv data.length W) i).1)
            * ((H : ℚ) / 2),
          (1 + (columnMinMax data (jsCeilDiv data.length W) i).2)
            * ((H : ℚ) / 2)⟩ := by
  simp only [visualizeSegments]
  rw [List.get?_map, List.get?_range hi]
  rfl

/-- Ceiling division of an exact multiple. -/
lemma jsCeilDiv_mul (w k : Nat) (hw : 0 < w) :
    jsCeilDiv (w * k) w = k := by
  unfold jsCeilDiv
  rw [Nat.add_sub_assoc hw, Nat.mul_add_div hw,
      Nat.div_eq_of_lt (by omega), Nat.add_zero]

/-- Claim C10 counterexample: with a one-sample buffer (N = 1) and the fixed
canvas width 800, step = 1 and the loop accesses index 1·1+0 = 1 ≥ N, so the
out-of-range branch of the buffer indexing is reached, and pixel column 1
retains the sentinel accumulator (1, -1). -/
theorem envelope_index_out_of_range :
    jsCeilDiv 1 800 = 1 ∧
    ¬ (1 * jsCeilDiv 1 800 + 0 < 1) ∧
    columnMinMax [(1 : ℚ) / 2] (jsCeilDiv 1 800) 1 = (1, -1) :=
  ⟨rfl, by decide, rfl⟩

/-- Claim C10 amended: the in-range guarantee holds exactly when 800 divides
the buffer length: for every buffer whose length is a positive multiple of
800, every index i·step+j accessed by the loop (i < 800, j < step) is
strictly below the length, and no pixel column retains the sentinel pair
(1, -1). -/
theorem envelope_in_range_of_dvd (data : List ℚ) (hpos : 0 < data.length)
    (hdvd : 800 ∣ data.length) :
    (∀ i < 800, ∀ j < jsCeilDiv data.length 800,
        i * jsCeilDiv data.length 800 + j < data.length) ∧
    (∀ i < 800,
        columnMinMax data (jsCeilDiv data.length 800) i ≠ (1, -1)) := by
  obtain ⟨k, hk⟩ := hdvd
  have hstep : jsCeilDiv data.length 800 = k := by
    rw [hk]
    exact jsCeilDiv_mul 800 k (by norm_num)
  have hk1 : 0 < k := by
    by_contra hk0
    push_neg at hk0
    interval_cases k
    omega
  have hidx : ∀ i, i < 800 → ∀ j, j < k → i * k + j < data.length := by
    intro i hi j hj
    have h2 : (i + 1) * k = i * k + k := by ring
    have h3 : (i + 1) * k ≤ 800 * k :=
      Nat.mul_le_mul_right k (by omega)
    omega
  constructor
  · intro i hi j hj
    rw [hstep] at hj ⊢
    exact hidx i hi j hj
  · intro i hi
    rw [hstep]
    have hlt : i * k + 0 < data.length := hidx i hi 0 hk1
    have hget : data.get? (i * k + 0) = some (data.get ⟨i * k + 0, hlt⟩) :=
      List.get?_eq_get hlt
    have hmem : i * k + 0
        ∈ (List.range k).map (fun j => i * k + j) :=
      List.mem_map.mpr ⟨0, List.mem_range.mpr hk1, rfl⟩
    have hb := foldScan_brackets data
      ((List.range k).map (fun j => i * k + j)) (1, -1)
      (i * k + 0) hmem (data.get ⟨i * k + 0, hlt⟩) hget
    rw [columnMinMax_eq_foldl_map]
    intro hcontra
    rw [hcontra] at hb
    obtain ⟨h1, h2⟩ := hb
    simp only at h1 h2
    linarith

/-- Witness for C10 at a concrete 800-sample buffer. -/
theorem envelope_in_range_of_dvd_witness :
    0 < (List.replicate 800 (0 : ℚ)).length ∧
    800 ∣ (List.replicate 800 (0 : ℚ)).length ∧
    (∀ i < 800,
        ∀ j < jsCeilDiv (List.replicate 800 (0 : ℚ)).length 800,
          i * jsCeilDiv (List.replicate 800 (0 : ℚ)).length 800 + j
            < (List.replicate 800 (0 : ℚ)).length) :=
  ⟨by rw [List.length_replicate]; norm_num,
   by rw [List.length_replicate],
   (envelope_in_range_of_dvd (List.replicate 800 (0 : ℚ))
      (by rw [List.length_replicate]; norm_num)
      (by rw [List.length_replicate])).1⟩

/-- Claim C1 counterexample: for a one-sample buffer and the 800-wide,
100-high canvas, pixel column 1 scans the span [1, 2), which contains no
samples at all; a segment is nonetheless emitted from the sentinel
accumulator (1, -1) — a full-height line from 100 to 0 whose endpoints are
not the (min, max) amplitude over the samples of that span. -/
theorem envelope_segment_not_span_minmax :
    spanSamples [(0 : ℚ)] (jsCeilDiv (List.length [(0 : ℚ)]) 800) 1
      = [] ∧
    columnMinMax [(0 : ℚ)] (jsCeilDiv (List.length [(0 : ℚ)]) 800) 1
      = (1, -1) ∧
    (visualizeSegments [(0 : ℚ)] 800 100).get? 1 = some ⟨1, 100, 0⟩ := by
  refine ⟨rfl, rfl, ?_⟩
  rw [visualizeSegments_get [(0 : ℚ)] 800 100 1 (by norm_num)]
  have hcol : columnMinMax [(0 : ℚ)]
      (jsCeilDiv (List.length [(0 : ℚ)]) 800) 1 = (1, -1) := rfl
  have h1 : (columnMinMax [(0 : ℚ)]
      (jsCeilDiv (List.length [(0 : ℚ)]) 800) 1).1 = 1 := by rw [hcol]
  have h2 : (columnMinMax [(0 : ℚ)]
      (jsCeilDiv (List.length [(0 : ℚ)]) 800) 1).2 = -1 := by rw [hcol]
  rw [h1, h2]
  simp only [Option.some.injEq, Segment.mk.injEq]
  norm_num

/-- Claim C1 amended: the renderer always produces exactly W envelope
segments, one per pixel column; for every column whose sample span
[i·step, i·step+step) lies inside the buffer, with amplitudes in [-1, 1],
the column accumulator (min, max) is attained by samples of the span and
bounds every sample of the span, and the emitted segment is the vertical
line from (1+min)·H/2 to (1+max)·H/2.  Columns whose span reaches past the
buffer instead keep the sentinel-initialized accumulator over only the
in-range part of the span. -/
theorem envelope_segments (data : List ℚ) (W H : Nat)
    (hamp : ∀ x ∈ data, -1 ≤ x ∧ x ≤ 1) :
    (visualizeSegments data W H).length = W ∧
    ∀ i, i < W →
      (i + 1) * jsCeilDiv data.length W ≤ data.length →
      0 < jsCeilDiv data.length W →
      ∃ mn mx : ℚ,
        columnMinMax data (jsCeilDiv data.length W) i = (mn, mx) ∧
        (∃ j < jsCeilDiv data.length W,
          data.get? (i * jsCeilDiv data.length W + j) = some mn) ∧
        (∃ j < jsCeilDiv data.length W,
          data.get? (i * jsCeilDiv data.length W + j) = some mx) ∧
        (∀ j < jsCeilDiv data.length W, ∀ d : ℚ,
          data.get? (i * jsCeilDiv data.length W + j) = some d →
            mn ≤ d ∧ d ≤ mx) ∧
        (visualizeSegments data W H).get? i
          = some ⟨i, (1 + mn) * ((H : ℚ) / 2),
              (1 + mx) * ((H : ℚ) / 2)⟩ := by
  refine ⟨by simp [visualizeSegments], ?_⟩
  intro i hi hspan hstep
  have hidxlt : ∀ j, j < jsCeilDiv data.length W →
      i * jsCeilDiv data.length W + j < data.length := by
    intro j hj
    have h2 : (i + 1) * jsCeilDiv data.length W
        = i * jsCeilDiv data.length W + jsCeilDiv data.length W := by ring
    omega
  have hbr : ∀ j, j < jsCeilDiv data.length W → ∀ d : ℚ,
      data.get? (i * jsCeilDiv data.length W + j) = some d →
      (columnMinMax data (jsCeilDiv data.length W) i).1 ≤ d ∧
        d ≤ (columnMinMax data (jsCeilDiv data.length W) i).2 := by
    intro j hj d hd
    rw [columnMinMax_eq_foldl_map]
    exact foldScan_brackets data _ (1, -1)
      (i * jsCeilDiv data.length W + j)
      (List.mem_map.mpr ⟨j, List.mem_range.mpr hj, rfl⟩) d hd
  have hlt0 : i * jsCeilDiv data.length W + 0 < data.length :=
    hidxlt 0 hstep
  have hget0 : data.get? (i * jsCeilDiv data.length W + 0)
      = some (data.get ⟨i * jsCeilDiv data.length W + 0, hlt0⟩) :=
    List.get?_eq_get hlt0
  have hamp0 := hamp _ (List.get?_mem hget0)
  have hbr0 := hbr 0 hstep _ hget0
  refine ⟨(columnMinMax data (jsCeilDiv data.length W) i).1,
      (columnMinMax data (jsCeilDiv data.length W) i).2,
      Prod.mk.eta.symm, ?_, ?_, hbr, visualizeSegments_get data W H i hi⟩
  · rcases foldScan_fst_mem data
        ((List.range (jsCeilDiv data.length W)).map
          (fun j => i * jsCeilDiv data.length W + j)) (1, -1) with
      heq | ⟨idx, hmem, hgetm⟩
    · have h1 : (columnMinMax data (jsCeilDiv data.length W) i).1 = 1 := by
        rw [columnMinMax_eq_foldl_map]
        exact heq
      refine ⟨0, hstep, ?_⟩
      rw [hget0, h1]
      have hge : (1 : ℚ)
          ≤ data.get ⟨i * jsCeilDiv data.length W + 0, hlt0⟩ := by
        rw [← h1]
        exact hbr0.1
      rw [le_antisymm hamp0.2 hge]
    · obtain ⟨j, hj, hjeq⟩ := List.mem_map.mp hmem
      have hjeq2 : i * jsCeilDiv data.length W + j = idx := hjeq
      refine ⟨j, List.mem_range.mp hj, ?_⟩
      rw [hjeq2, columnMinMax_eq_foldl_map]
      exact hgetm
  · rcases foldScan_snd_mem data
        ((List.range (jsCeilDiv data.length W)).map
          (fun j => i * jsCeilDiv data.length W + j)) (1, -1) with
      heq | ⟨idx, hmem, hgetm⟩
    · have h2 : (columnMinMax data (jsCeilDiv data.length W) i).2 = -1 := by
        rw [columnMinMax_eq_foldl_map]
        exact heq
      refine ⟨0, hstep, ?_⟩
      rw [hget0, h2]
      have hle : data.get ⟨i * jsCeilDiv data.length W + 0, hlt0⟩
          ≤ (-1 : ℚ) := by
        rw [← h2]
        exact hbr0.2
      rw [le_antisymm hle hamp0.1]
    · obtain ⟨j, hj, hjeq⟩ := List.mem_map.mp hmem
      have hjeq2 : i * jsCeilDiv data.length W + j = idx := hjeq
      refine ⟨j, List.mem_range.mp hj, ?_⟩
      rw [hjeq2, columnMinMax_eq_foldl_map]
      exact hgetm

/-- Witness for C1 at a two-sample buffer on a 2-wide canvas, where every
span lies inside the buffer. -/
theorem envelope_segments_witness :
    (∀ x ∈ [(0 : ℚ), 0], -1 ≤ x ∧ x ≤ 1) ∧
    (0 < 2 ∧
      (0 + 1) * jsCeilDiv (List.length [(0 : ℚ), 0]) 2
        ≤ List.length [(0 : ℚ), 0] ∧
      0 < jsCeilDiv (List.length [(0 : ℚ), 0]) 2) ∧
    (visualizeSegments [(0 : ℚ), 0] 2 100).length = 2 ∧
    ∃ mn mx : ℚ,
      columnMinMax [(0 : ℚ), 0]
          (jsCeilDiv (List.length [(0 : ℚ), 0]) 2) 0 = (mn, mx) ∧
      (∃ j < jsCeilDiv (List.length [(0 : ℚ), 0]) 2,
        List.get? [(0 : ℚ), 0]
          (0 * jsCeilDiv (List.length [(0 : ℚ), 0]) 2 + j) = some mn) ∧
      (∃ j < jsCeilDiv (List.length [(0 : ℚ), 0]) 2,
        List.get? [(0 : ℚ), 0]
          (0 * jsCeilDiv (List.length [(0 : ℚ), 0]) 2 + j) = some mx) ∧
      (∀ j < jsCeilDiv (List.length [(0 : ℚ), 0]) 2, ∀ d : ℚ,
        List.get? [(0 : ℚ), 0]
          (0 * jsCeilDiv (List.length [(0 : ℚ), 0]) 2 + j) = some d →
          mn ≤ d ∧ d ≤ mx) ∧
      (visualizeSegments [(0 : ℚ), 0] 2 100).get? 0
        = some ⟨0, (1 + mn) * (((100 : Nat) : ℚ) / 2),
            (1 + mx) * (((100 : Nat) : ℚ) / 2)⟩ := by
  have hamp : ∀ x ∈ [(0 : ℚ), 0], -1 ≤ x ∧ x ≤ 1 := by
    intro x hx
    simp at hx
    subst hx
    norm_num
  refine ⟨hamp, ⟨by decide, by decide, by decide⟩,
      (envelope_segments [(0 : ℚ), 0] 2 100 hamp).1, ?_⟩
  exact (envelope_segments [(0 : ℚ), 0] 2 100 hamp).2 0 (by decide)
    (by decide) (by decide)
